import Mathlib

set_option maxHeartbeats 1000000

/-!
Verification model of the gemini-tts-bot TTS orchestration layer.

This file gives a shallow embedding of the two core components of the
repository — the dialogue analyzer (`src/gemini_tts_bot/services/analyzer.py`)
and the speech request pipeline (`src/gemini_tts_bot/services/tts.py`) — and
proves properties of them.  Network calls are abstracted as oracles: the
classifier response becomes a `ClassifierOutcome` argument, and each TTS
attempt's transport outcome becomes an `AttemptOutcome` value.  Remote JSON
responses are modelled by the `JValue` type; Python code that can raise is
modelled in the `Except PyExc` monad.  Python strings are modelled as Lean
strings; `re` character classes `\d` and `\s` are modelled over their ASCII
parts (all inputs relevant to the properties proved here are ASCII in those
positions), and `str()` renderings of non-string JSON values inside messages
are modelled up to cosmetic detail.
-/

-- ===================== utils/voices.py =====================

/-- Keys of the `VOICES` dict in `utils/voices.py`, in insertion order
(`list(VOICES.keys())`).  Only the keys are needed by the analyzer logic;
descriptions are used solely to build the classifier prompt. -/
def VOICE_NAMES : List String :=
  ["Kore", "Puck", "Charon", "Zephyr", "Fenrir", "Enceladus", "Sulafat", "Leda",
   "Orus", "Aoede", "Callirrhoe", "Autonoe", "Iapetus", "Umbriel", "Algieba",
   "Despina", "Erinome", "Algenib", "Rasalgethi", "Laomedeia", "Achernar",
   "Alnilam", "Schedar", "Gacrux", "Pulcherrima", "Achird", "Zubenelgenubi",
   "Vindemiatrix", "Sadachbia", "Sadaltager"]

-- ===================== services/analyzer.py =====================

/-- ASCII whitespace, as matched by the regex class `\s` and stripped by
`str.strip()` (Unicode-only whitespace is not modelled). -/
def pyIsSpace (c : Char) : Bool :=
  c == ' ' || c == '\t' || c == '\n' || c == '\r' || c == '\x0b' || c == '\x0c'

/-- Characters allowed in a speaker label by `DIALOGUE_PATTERN`, i.e. the
class `[^:：/\.\n]`. -/
def isLabelChar (c : Char) : Bool :=
  !(c == ':' || c == '：' || c == '/' || c == '.' || c == '\n')

/-- One attempt of `DIALOGUE_PATTERN` (`^([^:：/\.\n]{1,20})[：:]\s*\S`) at a
line-start position.  The greedy label run necessarily stops at the first
character outside the class, so a match exists exactly when that run has
length 1..20, is followed by a half- or full-width colon, and some
non-whitespace character follows the whitespace after the colon.  Returns the
captured label and the number of characters the whole match consumes. -/
def dialogueMatchAt (cs : List Char) : Option (String × Nat) :=
  let run := cs.takeWhile isLabelChar
  if run.length = 0 ∨ run.length > 20 then none
  else
    match cs.drop run.length with
    | c :: rest =>
      if c == ':' || c == '：' then
        let ws := rest.takeWhile pyIsSpace
        match rest.drop ws.length with
        | _ :: _ => some (String.mk run, run.length + 1 + ws.length + 1)
        | [] => none
      else none
    | [] => none

/-- Scanner for `re.findall` with the MULTILINE `^` anchor: left-to-right,
non-overlapping, matching only at the string start or right after a newline.
The fuel argument starts at the character count; every step consumes at least
one character, so the fuel never runs out before the input does. -/
def findallFrom : Nat → List Char → Bool → List String
  | 0, _, _ => []
  | _ + 1, [], _ => []
  | fuel + 1, c :: rest, atLineStart =>
    if atLineStart then
      match dialogueMatchAt (c :: rest) with
      | some (label, consumed) =>
        label :: findallFrom fuel ((c :: rest).drop consumed) false
      | none => findallFrom fuel rest (c == '\n')
    else findallFrom fuel rest (c == '\n')

/-- `DIALOGUE_PATTERN.findall(text)`. -/
def pyFindallDialogue (text : String) : List String :=
  findallFrom text.toList.length text.toList true

/-- Python `str.lower()` over the ASCII range. -/
def pyLower (s : String) : String :=
  String.mk (s.toList.map Char.toLower)

/-- Substring test, Python `needle in hay` for strings. -/
def pyInStr (needle hay : String) : Bool :=
  hay.toList.tails.any (fun t => needle.toList.isPrefixOf t)

/-- The `EXCLUDE_PATTERNS` of `analyzer.py`, applied with `pattern.match(name)`
in order.  On label strings (which contain no newline) the six regexes reduce
to: all-digits, `http`/`https` (case-insensitive), 1-2 digits (subsumed by
all-digits), ends-with-a-digit, protocol names, and common non-speaker words. -/
def matchesExcludePattern (name : String) : Bool :=
  let l := name.toList
  let low := pyLower name
  (!l.isEmpty && l.all Char.isDigit)
  || (low == "http" || low == "https")
  || (!l.isEmpty && l.all Char.isDigit && decide (l.length ≤ 2))
  || (match l.getLast? with | some c => c.isDigit | none => false)
  || (low == "http" || low == "https" || low == "ftp" || low == "file")
  || (low == "note" || low == "warning" || low == "error" || low == "info"
      || low == "debug" || low == "step")

/-- Python `str.strip()` (ASCII whitespace). -/
def pyStrip (s : String) : String :=
  String.mk (((s.toList.dropWhile pyIsSpace).reverse.dropWhile pyIsSpace).reverse)

/-- One iteration of the match-processing loop of `_extract_speakers_simple`:
strip the match, skip empties and names already seen, skip excluded names,
otherwise record the name in `seen` (first component) and append it to the
speaker list (second component). -/
def extractStep (st : List String × List String) (m : String) :
    List String × List String :=
  let name := pyStrip m
  if name == "" || st.1.contains name then st
  else if matchesExcludePattern name then st
  else (st.1 ++ [name], st.2 ++ [name])

/-- `DialogueAnalyzer._extract_speakers_simple`: findall, then strip each
match, drop empties and duplicates (first occurrence kept), and drop labels
matching an exclusion pattern. -/
def extract_speakers_simple (text : String) : List String :=
  ((pyFindallDialogue text).foldl extractStep ([], [])).2

/-- `DialogueAnalyzer._assign_default_voices`: positional assignment of the
fixed default voice list to the first two speakers. -/
def assign_default_voices (speakers : List String) : List (String × String) :=
  let default_voices := ["Charon", "Zephyr", "Kore", "Puck"]
  ((speakers.take 2).enum).map
    (fun p => (p.2, default_voices.getD (p.1 % default_voices.length) ""))

/-- One classifier-output entry, after `item.get("speaker", "")` and
`item.get("voice", "")`.  Entries with non-string fields behave like entries
whose speaker is not among the originals (skipped) or whose voice is not a
catalog key (replaced); entries that are not dicts raise and are covered by
`ClassifierOutcome.raised`. -/
structure RawItem where
  speaker : String
  voice : String
deriving DecidableEq

/-- The mutable loop state of `_analyze_with_gemini_sync`.  The Python sets
`used_voices` and `assigned_speakers` are modelled as append-ordered lists
(only membership is ever queried). -/
structure ProcState where
  assignments : List (String × String)
  used_voices : List String
  assigned_speakers : List String
deriving DecidableEq

/-- The three appends performed when a speaker is given a voice:
`used_voices.add(voice)`, `assigned_speakers.add(speaker)`,
`assignments.append((speaker, voice))`. -/
def stepAppend (st : ProcState) (sp v : String) : ProcState :=
  { assignments := st.assignments ++ [(sp, v)]
    used_voices := st.used_voices ++ [v]
    assigned_speakers := st.assigned_speakers ++ [sp] }

/-- The `if voice in used_voices:` reassignment of `_analyze_with_gemini_sync`:
an already-used voice is replaced by the first catalog voice not yet used
(the Python loop leaves the voice unchanged if no unused voice exists). -/
def resolveVoice (used : List String) (voice : String) : String :=
  if used.contains voice then
    match VOICE_NAMES.find? (fun v => !used.contains v) with
    | some v => v
    | none => voice
  else voice

/-- The body of the first `for item in result.get("assignments", [])` loop of
`_analyze_with_gemini_sync`: skip hallucinated speakers, skip duplicate
speakers, replace unknown voices by Charon (or Kore if Charon is taken),
replace already-used voices via `resolveVoice`, then append. -/
def stepItem (speakers : List String) (st : ProcState) (item : RawItem) : ProcState :=
  if !speakers.contains item.speaker then st
  else if st.assigned_speakers.contains item.speaker then st
  else
    stepAppend st item.speaker
      (resolveVoice st.used_voices
        (if VOICE_NAMES.contains item.voice then item.voice
         else if !st.used_voices.contains "Charon" then "Charon" else "Kore"))

/-- The body of the second loop of `_analyze_with_gemini_sync`: give every
still-unassigned original speaker the first unused catalog voice (and leave
it unassigned when every catalog voice is in use, as the Python loop does). -/
def fillMissingStep (st : ProcState) (speaker : String) : ProcState :=
  if st.assigned_speakers.contains speaker then st
  else
    match VOICE_NAMES.find? (fun v => !st.used_voices.contains v) with
    | some v => stepAppend st speaker v
    | none => st

/-- `DialogueAnalyzer._analyze_with_gemini_sync`, with the remote call already
performed: `body = none` is the `json.loads` failure branch
(`except (JSONDecodeError, KeyError)` returns the default assignment), and
`body = some items` is the parsed `assignments` array. -/
def analyze_with_gemini_sync (speakers : List String) (body : Option (List RawItem)) :
    List (String × String) :=
  match body with
  | none => assign_default_voices speakers
  | some items =>
    (speakers.foldl fillMissingStep (items.foldl (stepItem speakers) ⟨[], [], []⟩)).assignments

/-- Outcome of the classifier network call, as seen by `analyze`:
`raised` covers any exception thrown by `generate_content` or by the
response-processing code (caught by `except Exception` in `analyze`), and
`returned body` a completed call whose text either fails JSON decoding
(`body = none`) or parses to an assignments array. -/
inductive ClassifierOutcome where
  | raised
  | returned (body : Option (List RawItem))

/-- The `DialogueAnalysis` dataclass. -/
structure DialogueAnalysis where
  is_dialogue : Bool
  speakers : List (String × String)
  error : Option String := none
deriving DecidableEq

/-- The f-string error message built by `analyze` when more than two speakers
are detected. -/
def tooManySpeakersMsg (n : Nat) : String :=
  "检测到 " ++ toString n ++ " 个说话人，但目前仅支持最多 2 人的对话。请简化文本后重试。"

/-- `DialogueAnalyzer.analyze`.  The returned Bool records whether the
classifier network call was issued. -/
def analyze (text : String) (classifier : ClassifierOutcome) : DialogueAnalysis × Bool :=
  let speakers := extract_speakers_simple text
  if speakers.isEmpty then (⟨false, [], none⟩, false)
  else if speakers.length = 1 then (⟨false, [], none⟩, false)
  else if speakers.length > 2 then
    (⟨true, [], some (tooManySpeakersMsg speakers.length)⟩, false)
  else
    match classifier with
    | .raised => (⟨true, assign_default_voices speakers, none⟩, true)
    | .returned body => (⟨true, analyze_with_gemini_sync speakers body, none⟩, true)

/-- What `handlers/text.py` does with an analysis result: a truthy
`analysis.error` is reported and the handler returns before any synthesis
call; otherwise exactly one synthesis call is made, chosen by `is_dialogue`. -/
inductive HandlerAction where
  | reportError (msg : String)
  | synthDialogue
  | synthMonologue
deriving DecidableEq

/-- The dispatch logic of `text_handler` after `analyze` returns. -/
def handlerDispatch (a : DialogueAnalysis) : HandlerAction :=
  match a.error with
  | some msg =>
    if msg == "" then (if a.is_dialogue then .synthDialogue else .synthMonologue)
    else .reportError msg
  | none => if a.is_dialogue then .synthDialogue else .synthMonologue

-- ===================== services/tts.py =====================

/-- JSON values as produced by `response.json()` (numbers restricted to
integers; none of the modelled code paths distinguish floats). -/
inductive JValue where
  | null
  | bool (b : Bool)
  | num (n : Int)
  | str (s : String)
  | arr (elems : List JValue)
  | obj (fields : List (String × JValue))

/-- A raised Python exception: its class name (`type(e).__name__`) and its
`str(e)` rendering.  Messages of exceptions raised inside the modelled code
are approximated up to cosmetic wording. -/
structure PyExc where
  typeName : String
  message : String
deriving DecidableEq

def keyErrorExc (k : String) : PyExc := ⟨"KeyError", k⟩

def indexErrorExc : PyExc := ⟨"IndexError", "list index out of range"⟩

def strIndexErrorExc : PyExc := ⟨"IndexError", "string index out of range"⟩

def typeErrorExc : PyExc := ⟨"TypeError", "unsupported subscript or argument type"⟩

def attributeErrorExc : PyExc := ⟨"AttributeError", "object has no attribute"⟩

def valueErrorExc : PyExc := ⟨"ValueError", "string argument should contain only ASCII characters"⟩

/-- `binascii.Error` (class name `Error`). -/
def binasciiErrorExc : PyExc := ⟨"Error", "Invalid base64-encoded string"⟩

/-- Python truthiness of a JSON value. -/
def pyTruthy : JValue → Bool
  | .null => false
  | .bool b => b
  | .num n => n != 0
  | .str s => s != ""
  | .arr xs => !xs.isEmpty
  | .obj kvs => !kvs.isEmpty

/-- First-match key lookup in a JSON object (JSON objects have unique keys). -/
def jLookup (kvs : List (String × JValue)) (k : String) : Option JValue :=
  (kvs.find? (fun kv => kv.1 == k)).map (fun kv => kv.2)

/-- Python `v == s` for a string literal `s`: true only for an equal string
value (values of other types compare unequal, without raising). -/
def jIsStrEq (v : JValue) (s : String) : Bool :=
  match v with
  | .str t => t == s
  | _ => false

/-- Python `key in v` for a string key: key membership for dicts, element
equality for lists, substring test for strings, `TypeError` otherwise. -/
def pyContains (v : JValue) (key : String) : Except PyExc Bool :=
  match v with
  | .obj kvs => .ok (jLookup kvs key).isSome
  | .arr xs => .ok (xs.any (fun e => jIsStrEq e key))
  | .str s => .ok (pyInStr key s)
  | _ => .error typeErrorExc

/-- Python `v[key]` for a string key: dict lookup (`KeyError` if absent),
`TypeError` for lists, strings and scalars. -/
def pyGetItem (v : JValue) (key : String) : Except PyExc JValue :=
  match v with
  | .obj kvs =>
    match jLookup kvs key with
    | some x => .ok x
    | none => .error (keyErrorExc key)
  | _ => .error typeErrorExc

/-- Python `v[0]`: head for lists (`IndexError` when empty), one-character
string for strings, `KeyError` for dicts (JSON dict keys are strings),
`TypeError` for scalars. -/
def pyIndexZero (v : JValue) : Except PyExc JValue :=
  match v with
  | .arr (x :: _) => .ok x
  | .arr [] => .error indexErrorExc
  | .str s =>
    match s.toList with
    | c :: _ => .ok (.str (String.mk [c]))
    | [] => .error strIndexErrorExc
  | .obj _ => .error (keyErrorExc "0")
  | _ => .error typeErrorExc

/-- Python `v.get(key, dflt)`: defaulting lookup for dicts, `AttributeError`
for every other type. -/
def pyGetAttrDefault (v : JValue) (key : String) (dflt : JValue) : Except PyExc JValue :=
  match v with
  | .obj kvs => .ok ((jLookup kvs key).getD dflt)
  | _ => .error attributeErrorExc

/-- Python `str()` of a JSON value as interpolated into f-strings.  Container
renderings are elided (cosmetic only: no modelled property inspects them). -/
def pyStrOf : JValue → String
  | .null => "None"
  | .bool true => "True"
  | .bool false => "False"
  | .num n => toString n
  | .str s => s
  | .arr _ => "<list>"
  | .obj _ => "<dict>"

/-- Value of a standard base64 alphabet character. -/
def b64Val? (c : Char) : Option Nat :=
  if 'A' ≤ c ∧ c ≤ 'Z' then some (c.toNat - 'A'.toNat)
  else if 'a' ≤ c ∧ c ≤ 'z' then some (c.toNat - 'a'.toNat + 26)
  else if '0' ≤ c ∧ c ≤ '9' then some (c.toNat - '0'.toNat + 52)
  else if c = '+' then some 62
  else if c = '/' then some 63
  else none

/-- Byte output of base64 decoding for a run of 6-bit values whose length is
not 1 mod 4 (the final partial group of 2 or 3 values yields 1 or 2 bytes). -/
def decodeB64Groups : List Nat → List Nat
  | a :: b :: c :: d :: rest =>
    (a * 4 + b / 16) :: ((b % 16) * 16 + c / 4) :: ((c % 4) * 64 + d) :: decodeB64Groups rest
  | [a, b, c] => [a * 4 + b / 16, (b % 16) * 16 + c / 4]
  | [a, b] => [a * 4 + b / 16]
  | [_] => []
  | [] => []

/-- `base64.b64decode` on a str argument (default non-strict mode): non-ASCII
input raises `ValueError`; characters outside the alphabet are discarded;
data characters are the kept characters before the first padding `=`; a data
length of 1 mod 4, or a non-multiple-of-4 data length with no padding present,
raises `binascii.Error`; otherwise the data groups are decoded. -/
def b64decode (s : String) : Except PyExc (List Nat) :=
  if s.toList.any (fun c => c.toNat ≥ 128) then .error valueErrorExc
  else
    let kept := s.toList.filter (fun c => (b64Val? c).isSome || c == '=')
    let dataChars := kept.takeWhile (fun c => c != '=')
    let vals := dataChars.filterMap b64Val?
    if vals.length % 4 = 1 then .error binasciiErrorExc
    else if vals.length % 4 ≠ 0 ∧ dataChars.length = kept.length then .error binasciiErrorExc
    else .ok (decodeB64Groups vals)

/-- The `TTSResult` dataclass (audio bytes as a list of byte values). -/
structure TTSResult where
  audio_data : List Nat
  success : Bool
  error : Option String := none
deriving DecidableEq

/-- `TTSService._sanitize_error_message` (sanitizer for remote error-payload
messages). -/
def sanitize_error_message (msg : String) : String :=
  if pyInStr "quota" (pyLower msg) || pyInStr "limit" (pyLower msg) then
    "API quota exceeded. Please try again later."
  else if pyInStr "invalid" (pyLower msg) && pyInStr "key" (pyLower msg) then
    "API authentication error. Please check your configuration."
  else "TTS generation failed. Please try again."

/-- `TTSService._sanitize_error` (sanitizer for caught exceptions). -/
def sanitize_error (e : PyExc) : String :=
  let es := pyLower e.message
  if pyInStr "api_key" es || pyInStr "token" es then
    "API authentication error. Please check your configuration."
  else if pyInStr "quota" es || pyInStr "limit" es then
    "API quota exceeded. Please try again later."
  else if pyInStr "timeout" es then
    "Request timed out. Please try again."
  else if pyInStr "connection" es then
    "Connection error. Please check your network."
  else "TTS generation failed: " ++ e.typeName

/-- `TTSResult(audio_data=b"", success=False, error="No audio content generated")`. -/
def noAudioResult : TTSResult := ⟨[], false, some "No audio content generated"⟩

/-- `TTSService._parse_response`, in the `Except` monad: a `.error` value is
an exception the Python function would raise (to be caught by the retry
loop), a `.ok` value the `TTSResult` it returns. -/
def parse_response (data : JValue) : Except PyExc TTSResult :=
  match pyContains data "candidates" with
  | .error e => .error e
  | .ok true =>
    match pyGetItem data "candidates" with
    | .error e => .error e
    | .ok cands =>
      match pyIndexZero cands with
      | .error e => .error e
      | .ok candidate =>
        match pyGetAttrDefault candidate "finishReason" (.str "") with
        | .error e => .error e
        | .ok finish_reason =>
          if pyTruthy finish_reason
              && !(jIsStrEq finish_reason "STOP" || jIsStrEq finish_reason "") then
            .ok ⟨[], false, some ("Content blocked: " ++ pyStrOf finish_reason)⟩
          else
            match pyGetAttrDefault candidate "content" .null with
            | .error e => .error e
            | .ok content =>
              match (if pyTruthy content then pyContains content "parts" else .ok false) with
              | .error e => .error e
              | .ok hasParts =>
                if hasParts then
                  match pyGetItem content "parts" with
                  | .error e => .error e
                  | .ok parts =>
                    match pyIndexZero parts with
                    | .error e => .error e
                    | .ok part0 =>
                      match pyGetAttrDefault part0 "inlineData" .null with
                      | .error e => .error e
                      | .ok inline_data =>
                        match (if pyTruthy inline_data then
                                 pyGetAttrDefault inline_data "data" .null
                               else .ok .null) with
                        | .error e => .error e
                        | .ok dataVal =>
                          if pyTruthy dataVal then
                            match (match dataVal with
                                   | .str s => b64decode s
                                   | _ => .error typeErrorExc) with
                            | .error e => .error e
                            | .ok audio => .ok ⟨audio, true, none⟩
                          else noAudioResult |> .ok
                else noAudioResult |> .ok
  | .ok false =>
    match pyContains data "error" with
    | .error e => .error e
    | .ok true =>
      match pyGetItem data "error" with
      | .error e => .error e
      | .ok errObj =>
        match pyGetAttrDefault errObj "message" (.str "Unknown error") with
        | .error e => .error e
        | .ok msgVal =>
          match msgVal with
          | .str m => .ok ⟨[], false, some (sanitize_error_message m)⟩
          | _ => .error attributeErrorExc
    | .ok false => .ok ⟨[], false, some "Unexpected API response"⟩

/-- Outcome of one TTS attempt's transport step (`client.post` plus
`response.json()`): either it raised, or it produced a decoded JSON body. -/
inductive AttemptOutcome where
  | throws (e : PyExc)
  | responds (data : JValue)

def MAX_RETRIES : Nat := 3

/-- Python `a or b` for an optional string `a` and fallback `b` (both `None`
and the empty string select the fallback). -/
def pyOrStr (o : Option String) (dflt : String) : String :=
  match o with
  | some s => if s == "" then dflt else s
  | none => dflt

/-- The `TTSResult` built after the retry loop exhausts:
`TTSResult(b"", False, last_error or "TTS generation failed after retries")`. -/
def retriesExhausted (last : Option String) : TTSResult :=
  ⟨[], false, some (pyOrStr last "TTS generation failed after retries")⟩

/-- The shared retry loop of `generate_monologue` and `generate_dialogue`
(the source repeats the identical loop in both): up to `fuel` further
attempts, `made` attempts already made, `last` the last recorded error.
Returns the result together with the total number of attempts made.  A
raising attempt (transport or parse) records its sanitized message; a
non-success parse result records its error; a success returns immediately. -/
def goLoop (outcomes : Nat → AttemptOutcome) :
    Nat → Nat → Option String → TTSResult × Nat
  | 0, made, last => (retriesExhausted last, made)
  | fuel + 1, made, _last =>
    match outcomes made with
    | .throws e => goLoop outcomes fuel (made + 1) (some (sanitize_error e))
    | .responds data =>
      match parse_response data with
      | .ok result =>
        if result.success then (result, made + 1)
        else goLoop outcomes fuel (made + 1) result.error
      | .error e => goLoop outcomes fuel (made + 1) (some (sanitize_error e))

/-- `TTSService.generate_monologue`, with the per-attempt network outcomes
abstracted as an oracle (request payload construction has no bearing on the
result value and is omitted). -/
def generate_monologue (outcomes : Nat → AttemptOutcome) : TTSResult × Nat :=
  goLoop outcomes MAX_RETRIES 0 none

/-- `TTSService.generate_dialogue`: local speaker-count validation, then the
same retry loop. -/
def generate_dialogue (speakers : List (String × String))
    (outcomes : Nat → AttemptOutcome) : TTSResult × Nat :=
  if speakers.length > 2 then
    (⟨[], false, some "Gemini TTS supports maximum 2 speakers"⟩, 0)
  else goLoop outcomes MAX_RETRIES 0 none

/-- An attempt that does not produce a success result: it raises, or its body
parses to a non-success `TTSResult`. -/
def attemptFails (a : AttemptOutcome) : Bool :=
  match a with
  | .throws _ => true
  | .responds d =>
    match parse_response d with
    | .ok r => !r.success
    | .error _ => true

/-- An attempt whose body parses to a success `TTSResult`. -/
def attemptSucceeds (a : AttemptOutcome) : Bool :=
  match a with
  | .throws _ => false
  | .responds d =>
    match parse_response d with
    | .ok r => r.success
    | .error _ => false

/-- The error string the retry loop records for an attempt. -/
def attemptErrVal (a : AttemptOutcome) : Option String :=
  match a with
  | .throws e => some (sanitize_error e)
  | .responds d =>
    match parse_response d with
    | .ok r => r.error
    | .error e => some (sanitize_error e)

/-- Key presence in a JSON object (false for non-objects). -/
def jHasKey (v : JValue) (k : String) : Bool :=
  match v with
  | .obj kvs => (jLookup kvs k).isSome
  | _ => false

/-- The inline audio payload of a response envelope:
`candidates[0].content.parts[0].inlineData.data` when that path exists and
holds a string.  Observer used to relate a success result to its source
payload. -/
def inlineAudioField (data : JValue) : Option String :=
  match data with
  | .obj kvs =>
    match jLookup kvs "candidates" with
    | some (.arr (.obj ckvs :: _)) =>
      match jLookup ckvs "content" with
      | some (.obj contkvs) =>
        match jLookup contkvs "parts" with
        | some (.arr (.obj pkvs :: _)) =>
          match jLookup pkvs "inlineData" with
          | some (.obj ikvs) =>
            match jLookup ikvs "data" with
            | some (.str s) => some s
            | _ => none
          | _ => none
        | _ => none
      | _ => none
    | _ => none
  | _ => none

/-- Shape invariant of every pipeline result: success with no error, or
failure with empty audio and a nonempty error string. -/
def resultShapeOK (r : TTSResult) : Prop :=
  (r.success = true ∧ r.error = none) ∨
  (r.success = false ∧ r.audio_data = [] ∧ ∃ s, r.error = some s ∧ s ≠ "")

/-- Invariant used in the two-speaker voice-assignment proof: the Python sets
mirror the assignment list, speakers are never duplicated and come from the
two originals, voices are never duplicated and come from the catalog. -/
def ProcInv (s0 s1 : String) (st : ProcState) : Prop :=
  st.used_voices = st.assignments.map Prod.snd ∧
  st.assigned_speakers = st.assignments.map Prod.fst ∧
  st.assigned_speakers.Nodup ∧
  st.used_voices.Nodup ∧
  (∀ p ∈ st.assigned_speakers, p = s0 ∨ p = s1) ∧
  (∀ v ∈ st.used_voices, v ∈ VOICE_NAMES)

-- ===================== sample response envelopes =====================

/-- A response whose inline audio payload decodes to three bytes. -/
def sampleSuccessEnvelope : JValue :=
  .obj [("candidates", .arr [.obj [("content",
    .obj [("parts", .arr [.obj [("inlineData", .obj [("data", .str "AAAA")])]])])]])]

/-- A response whose inline audio payload is the base64 string "AA==", which
decodes to a single byte. -/
def sampleOddEnvelope : JValue :=
  .obj [("candidates", .arr [.obj [("content",
    .obj [("parts", .arr [.obj [("inlineData", .obj [("data", .str "AA==")])]])])]])]

/-- A response with an empty candidates array: `data["candidates"][0]` raises
`IndexError` inside the parser. -/
def sampleEmptyCandidates : JValue := .obj [("candidates", .arr [])]

/-- A response dict matching none of the recognized shapes. -/
def sampleUnexpectedEnvelope : JValue := .obj [("foo", .null)]

-- ===================== helper lemmas =====================

theorem strLen_zero_iff (s : String) : s.length = 0 ↔ s = "" := by
  constructor
  · intro h
    obtain ⟨l⟩ := s
    simp [String.length] at h
    simp [h]
  · intro h
    simp [h]

theorem strAppend_ne_empty (a b : String) (h : a ≠ "") : a ++ b ≠ "" := by
  intro heq
  apply h
  have h2 := congrArg String.length heq
  rw [String.length_append] at h2
  have h0 : String.length "" = 0 := rfl
  have h3 : a.length = 0 := by omega
  exact (strLen_zero_iff a).mp h3

theorem tooManySpeakersMsg_ne_empty (n : Nat) : tooManySpeakersMsg n ≠ "" := by
  unfold tooManySpeakersMsg
  exact strAppend_ne_empty _ _ (strAppend_ne_empty _ _ (by decide))

-- ===================== C4: dialogue speaker-count precondition =====================

/-- C4: for every speaker-assignment list with more than two entries,
`generate_dialogue` fails immediately with the two-speaker-maximum message:
no attempt is made (zero network requests, no retry), the audio is empty and
the error is the fixed TooManySpeakers message. -/
theorem c4_dialogue_too_many_speakers (speakers : List (String × String))
    (outcomes : Nat → AttemptOutcome) (h : 2 < speakers.length) :
    generate_dialogue speakers outcomes =
      (⟨[], false, some "Gemini TTS supports maximum 2 speakers"⟩, 0) := by
  unfold generate_dialogue
  simp [h]

/-- Witness for C4 at a concrete three-assignment input. -/
theorem c4_witness :
    generate_dialogue [("a", "Kore"), ("b", "Puck"), ("c", "Charon")]
        (fun _ => .throws ⟨"RuntimeError", "boom"⟩) =
      (⟨[], false, some "Gemini TTS supports maximum 2 speakers"⟩, 0) :=
  c4_dialogue_too_many_speakers _ _ (by decide)

-- ===================== C6: zero/one label means monologue =====================

/-- C6: whenever extraction finds zero or one non-excluded label, `analyze`
returns the monologue result (not a dialogue, no speakers, no error) without
issuing the classifier network call; and the three spec examples contain no
recognizable speaker label at all. -/
theorem c6_monologue_gate :
    (∀ (text : String) (classifier : ClassifierOutcome),
        (extract_speakers_simple text).length ≤ 1 →
        analyze text classifier = (⟨false, [], none⟩, false))
    ∧ extract_speakers_simple "10:30 meeting" = []
    ∧ extract_speakers_simple "Step 1: go" = []
    ∧ extract_speakers_simple "https://example.com" = [] := by
  refine ⟨?_, by decide, by decide, by decide⟩
  intro text classifier h
  rcases hE : extract_speakers_simple text with _ | ⟨s0, _ | ⟨s1, rest⟩⟩
  · simp [analyze, hE]
  · simp [analyze, hE]
  · rw [hE] at h
    simp at h

/-- Witness for C6's quantified part at a concrete input. -/
theorem c6_witness :
    (extract_speakers_simple "10:30 meeting").length ≤ 1 ∧
    analyze "10:30 meeting" .raised = (⟨false, [], none⟩, false) :=
  ⟨by decide, c6_monologue_gate.1 "10:30 meeting" .raised (by decide)⟩

-- ===================== C5: more than two labels means AnalysisError =====================

/-- C5: whenever extraction finds more than two labels, `analyze` returns an
analysis error carrying the fixed message built from the detected count, with
an empty assignment list and without issuing the classifier call; and the
handler reports that error without issuing any synthesis call. -/
theorem c5_too_many_speakers (text : String) (classifier : ClassifierOutcome)
    (h : 2 < (extract_speakers_simple text).length) :
    analyze text classifier =
      (⟨true, [], some (tooManySpeakersMsg (extract_speakers_simple text).length)⟩, false)
    ∧ handlerDispatch (analyze text classifier).1 =
        .reportError (tooManySpeakersMsg (extract_speakers_simple text).length) := by
  have hne : extract_speakers_simple text ≠ [] := by
    intro hnil
    rw [hnil] at h
    simp at h
  have hlen1 : (extract_speakers_simple text).length ≠ 1 := by omega
  have hA : analyze text classifier =
      (⟨true, [], some (tooManySpeakersMsg (extract_speakers_simple text).length)⟩, false) := by
    unfold analyze
    simp [List.isEmpty_iff, hne, hlen1, h]
  refine ⟨hA, ?_⟩
  rw [hA]
  have hmsg : (tooManySpeakersMsg (extract_speakers_simple text).length == "") = false := by
    rw [beq_eq_false_iff_ne]
    exact tooManySpeakersMsg_ne_empty _
  simp [handlerDispatch, hmsg]

/-- Witness for C5 at a concrete three-speaker dialogue. -/
theorem c5_witness :
    2 < (extract_speakers_simple "A: hi\nB: yo\nC: hey").length ∧
    analyze "A: hi\nB: yo\nC: hey" .raised =
      (⟨true, [], some (tooManySpeakersMsg 3)⟩, false) :=
  ⟨by decide, (c5_too_many_speakers "A: hi\nB: yo\nC: hey" .raised (by decide)).1⟩

-- ===================== C8: deterministic fallback assignment =====================

/-- C8: when the classifier fails (exception or malformed response), voice
assignment is the fixed positional assignment from the default voice list: it
is given by a closed formula of the two ordered labels (hence identical
across any two runs on the same ordered pair), and the two assigned voices
are distinct. -/
theorem c8_fallback_deterministic (text : String) (s0 s1 : String)
    (h : extract_speakers_simple text = [s0, s1]) :
    assign_default_voices [s0, s1] = [(s0, "Charon"), (s1, "Zephyr")]
    ∧ (analyze text .raised).1.speakers = [(s0, "Charon"), (s1, "Zephyr")]
    ∧ (analyze text (.returned none)).1.speakers = [(s0, "Charon"), (s1, "Zephyr")]
    ∧ (analyze text .raised).1.speakers = (analyze text (.returned none)).1.speakers
    ∧ ("Charon" : String) ≠ "Zephyr" := by
  have hdef : assign_default_voices [s0, s1] = [(s0, "Charon"), (s1, "Zephyr")] := rfl
  have hA : (analyze text .raised).1.speakers = [(s0, "Charon"), (s1, "Zephyr")] := by
    unfold analyze
    simp [h, hdef]
  have hB : (analyze text (.returned none)).1.speakers = [(s0, "Charon"), (s1, "Zephyr")] := by
    unfold analyze
    simp [h, analyze_with_gemini_sync, hdef]
  exact ⟨hdef, hA, hB, by rw [hA, hB], by decide⟩

/-- Witness for C8 at a concrete two-speaker dialogue. -/
theorem c8_witness :
    extract_speakers_simple "Alice: hello\nBob: hi" = ["Alice", "Bob"] ∧
    (analyze "Alice: hello\nBob: hi" .raised).1.speakers =
      [("Alice", "Charon"), ("Bob", "Zephyr")] :=
  ⟨by decide,
   (c8_fallback_deterministic "Alice: hello\nBob: hi" "Alice" "Bob" (by decide)).2.1⟩

-- ===================== C7: error sanitization =====================

/-- C7 counterexample: a remote error payload mentioning a token is NOT mapped
to the generic auth-error message (the payload sanitizer has no api-key/token
rule), contradicting the claimed single rule set for both paths. -/
theorem c7_counterexample :
    sanitize_error_message "token expired" = "TTS generation failed. Please try again."
    ∧ "TTS generation failed. Please try again." ≠
        "API authentication error. Please check your configuration." :=
  ⟨by decide, by decide⟩

/-- C7 amended: the exception sanitizer follows the claimed priority order
(api_key/token, then quota/limit, then timeout, then connection, else a
generic message naming only the exception class); the remote-payload
sanitizer instead checks quota/limit first, then the substrings "invalid" and
"key" together, and otherwise returns a fixed generic message.  Every
surfaced string is drawn from the fixed set of generic messages (never the
raw exception or payload text). -/
theorem c7_sanitization_amended :
    (∀ e : PyExc,
      sanitize_error e = "API authentication error. Please check your configuration." ∨
      sanitize_error e = "API quota exceeded. Please try again later." ∨
      sanitize_error e = "Request timed out. Please try again." ∨
      sanitize_error e = "Connection error. Please check your network." ∨
      sanitize_error e = "TTS generation failed: " ++ e.typeName)
    ∧ (∀ e : PyExc,
        (pyInStr "api_key" (pyLower e.message) || pyInStr "token" (pyLower e.message)) = true →
        sanitize_error e = "API authentication error. Please check your configuration.")
    ∧ (∀ e : PyExc,
        (pyInStr "api_key" (pyLower e.message) || pyInStr "token" (pyLower e.message)) = false →
        (pyInStr "quota" (pyLower e.message) || pyInStr "limit" (pyLower e.message)) = true →
        sanitize_error e = "API quota exceeded. Please try again later.")
    ∧ (∀ e : PyExc,
        (pyInStr "api_key" (pyLower e.message) || pyInStr "token" (pyLower e.message)) = false →
        (pyInStr "quota" (pyLower e.message) || pyInStr "limit" (pyLower e.message)) = false →
        pyInStr "timeout" (pyLower e.message) = true →
        sanitize_error e = "Request timed out. Please try again.")
    ∧ (∀ e : PyExc,
        (pyInStr "api_key" (pyLower e.message) || pyInStr "token" (pyLower e.message)) = false →
        (pyInStr "quota" (pyLower e.message) || pyInStr "limit" (pyLower e.message)) = false →
        pyInStr "timeout" (pyLower e.message) = false →
        pyInStr "connection" (pyLower e.message) = true →
        sanitize_error e = "Connection error. Please check your network.")
    ∧ (∀ e : PyExc,
        (pyInStr "api_key" (pyLower e.message) || pyInStr "token" (pyLower e.message)) = false →
        (pyInStr "quota" (pyLower e.message) || pyInStr "limit" (pyLower e.message)) = false →
        pyInStr "timeout" (pyLower e.message) = false →
        pyInStr "connection" (pyLower e.message) = false →
        sanitize_error e = "TTS generation failed: " ++ e.typeName)
    ∧ (∀ m : String,
        sanitize_error_message m = "API quota exceeded. Please try again later." ∨
        sanitize_error_message m = "API authentication error. Please check your configuration." ∨
        sanitize_error_message m = "TTS generation failed. Please try again.")
    ∧ (∀ m : String,
        (pyInStr "quota" (pyLower m) || pyInStr "limit" (pyLower m)) = true →
        sanitize_error_message m = "API quota exceeded. Please try again later.")
    ∧ (∀ m : String,
        (pyInStr "quota" (pyLower m) || pyInStr "limit" (pyLower m)) = false →
        (pyInStr "invalid" (pyLower m) && pyInStr "key" (pyLower m)) = true →
        sanitize_error_message m = "API authentication error. Please check your configuration.")
    ∧ (∀ m : String,
        (pyInStr "quota" (pyLower m) || pyInStr "limit" (pyLower m)) = false →
        (pyInStr "invalid" (pyLower m) && pyInStr "key" (pyLower m)) = false →
        sanitize_error_message m = "TTS generation failed. Please try again.") := by
  refine ⟨?_, ?_, ?_, ?_, ?_, ?_, ?_, ?_, ?_, ?_⟩
  · intro e
    simp only [sanitize_error]
    split_ifs <;> simp
  · intro e h
    unfold sanitize_error
    simp [h]
  · intro e h1 h2
    unfold sanitize_error
    simp [h1, h2]
  · intro e h1 h2 h3
    unfold sanitize_error
    simp [h1, h2, h3]
  · intro e h1 h2 h3 h4
    unfold sanitize_error
    simp [h1, h2, h3, h4]
  · intro e h1 h2 h3 h4
    unfold sanitize_error
    simp [h1, h2, h3, h4]
  · intro m
    simp only [sanitize_error_message]
    split_ifs <;> simp
  · intro m h
    unfold sanitize_error_message
    simp [h]
  · intro m h1 h2
    unfold sanitize_error_message
    simp [h1, h2]
  · intro m h1 h2
    unfold sanitize_error_message
    simp [h1, h2]

/-- Witness for C7's amended theorem: an exception mentioning a token maps to
the auth message, and a payload mentioning quota maps to the quota message. -/
theorem c7_witness :
    (pyInStr "api_key" (pyLower "bad token") || pyInStr "token" (pyLower "bad token")) = true ∧
    sanitize_error ⟨"RuntimeError", "bad token"⟩ =
      "API authentication error. Please check your configuration." ∧
    (pyInStr "quota" (pyLower "quota exceeded") || pyInStr "limit" (pyLower "quota exceeded")) = true ∧
    sanitize_error_message "quota exceeded" = "API quota exceeded. Please try again later." :=
  ⟨by decide,
   c7_sanitization_amended.2.1 ⟨"RuntimeError", "bad token"⟩ (by decide),
   by decide,
   c7_sanitization_amended.2.2.2.2.2.2.2.1 "quota exceeded" (by decide)⟩

-- ===================== pipeline helper lemmas =====================

theorem sanitize_error_ne_empty (e : PyExc) : sanitize_error e ≠ "" := by
  simp only [sanitize_error]
  split_ifs <;> first | decide | exact strAppend_ne_empty _ _ (by decide)

theorem sanitize_error_message_ne_empty (m : String) : sanitize_error_message m ≠ "" := by
  simp only [sanitize_error_message]
  split_ifs <;> decide

theorem pyOrStr_ne_empty (o : Option String) (d : String) (hd : d ≠ "") :
    pyOrStr o d ≠ "" := by
  cases o with
  | none => exact hd
  | some s =>
    simp only [pyOrStr]
    split_ifs with hs
    · exact hd
    · intro hc
      rw [hc] at hs
      simp at hs

theorem parse_response_shape (data : JValue) (r : TTSResult)
    (h : parse_response data = .ok r) : resultShapeOK r := by
  unfold parse_response at h
  repeat' split at h
  all_goals cases h
  all_goals
    first
    | exact Or.inl ⟨rfl, rfl⟩
    | exact Or.inr ⟨rfl, rfl, _, rfl, strAppend_ne_empty _ _ (by decide)⟩
    | exact Or.inr ⟨rfl, rfl, _, rfl, sanitize_error_message_ne_empty _⟩
    | exact Or.inr ⟨rfl, rfl, _, rfl, by decide⟩
theorem goLoop_step_fail (outcomes : Nat → AttemptOutcome) (fuel made : Nat)
    (last : Option String) (h : attemptFails (outcomes made) = true) :
    goLoop outcomes (fuel + 1) made last =
      goLoop outcomes fuel (made + 1) (attemptErrVal (outcomes made)) := by
  cases ho : outcomes made with
  | throws e => simp [goLoop, ho, attemptErrVal]
  | responds d =>
    rw [ho] at h
    replace h : (match parse_response d with
      | Except.ok r => !r.success
      | Except.error _ => true) = true := h
    cases hp : parse_response d with
    | ok r =>
      rw [hp] at h
      simp at h
      simp [goLoop, ho, attemptErrVal, hp, h]
    | error e => simp [goLoop, ho, attemptErrVal, hp]

theorem goLoop_step_succ (outcomes : Nat → AttemptOutcome) (fuel made : Nat)
    (last : Option String) (h : attemptSucceeds (outcomes made) = true) :
    (goLoop outcomes (fuel + 1) made last).2 = made + 1 ∧
    (goLoop outcomes (fuel + 1) made last).1.success = true := by
  cases ho : outcomes made with
  | throws e => rw [ho] at h; simp [attemptSucceeds] at h
  | responds d =>
    rw [ho] at h
    replace h : (match parse_response d with
      | Except.ok r => r.success
      | Except.error _ => false) = true := h
    cases hp : parse_response d with
    | ok r =>
      rw [hp] at h
      simp at h
      simp [goLoop, ho, hp, h]
    | error e => rw [hp] at h; simp at h

theorem attemptFails_errVal (a : AttemptOutcome) (h : attemptFails a = true) :
    ∃ s, attemptErrVal a = some s ∧ s ≠ "" := by
  cases a with
  | throws e => exact ⟨sanitize_error e, rfl, sanitize_error_ne_empty e⟩
  | responds d =>
    replace h : (match parse_response d with
      | Except.ok r => !r.success
      | Except.error _ => true) = true := h
    show ∃ s, (match parse_response d with
      | Except.ok r => r.error
      | Except.error e => some (sanitize_error e)) = some s ∧ s ≠ ""
    cases hp : parse_response d with
    | error e =>
      exact ⟨sanitize_error e, rfl, sanitize_error_ne_empty e⟩
    | ok r =>
      rw [hp] at h
      simp at h
      rcases parse_response_shape d r hp with ⟨hs, _⟩ | ⟨_, _, s, hsome, hne⟩
      · rw [hs] at h; simp at h
      · exact ⟨s, hsome, hne⟩

theorem goLoop_shape (outcomes : Nat → AttemptOutcome) (fuel made : Nat)
    (last : Option String) : resultShapeOK (goLoop outcomes fuel made last).1 := by
  induction fuel generalizing made last with
  | zero =>
    exact Or.inr ⟨rfl, rfl, _, rfl,
      pyOrStr_ne_empty last "TTS generation failed after retries" (by decide)⟩
  | succ n ih =>
    cases ho : outcomes made with
    | throws e =>
      have : goLoop outcomes (n + 1) made last =
          goLoop outcomes n (made + 1) (some (sanitize_error e)) := by
        simp [goLoop, ho]
      rw [this]
      exact ih _ _
    | responds d =>
      cases hp : parse_response d with
      | error e =>
        have : goLoop outcomes (n + 1) made last =
            goLoop outcomes n (made + 1) (some (sanitize_error e)) := by
          simp [goLoop, ho, hp]
        rw [this]
        exact ih _ _
      | ok r =>
        by_cases hs : r.success = true
        · have : goLoop outcomes (n + 1) made last = (r, made + 1) := by
            simp [goLoop, ho, hp, hs]
          rw [this]
          exact parse_response_shape d r hp
        · simp only [Bool.not_eq_true] at hs
          have : goLoop outcomes (n + 1) made last =
              goLoop outcomes n (made + 1) r.error := by
            simp [goLoop, ho, hp, hs]
          rw [this]
          exact ih _ _
-- ===================== C10: result shape invariant =====================

/-- C10: every result of `generate_monologue` or `generate_dialogue` is
either a success with no error, or a failure with empty audio and a nonempty
error string (a sanitized or parser message, or the fixed fallback text). -/
theorem c10_result_shape (outcomes : Nat → AttemptOutcome)
    (speakers : List (String × String)) :
    resultShapeOK (generate_monologue outcomes).1 ∧
    resultShapeOK (generate_dialogue speakers outcomes).1 := by
  constructor
  · exact goLoop_shape outcomes MAX_RETRIES 0 none
  · unfold generate_dialogue
    split_ifs with h
    · exact Or.inr ⟨rfl, rfl, _, rfl, by decide⟩
    · exact goLoop_shape outcomes MAX_RETRIES 0 none

-- ===================== C2: retry behavior =====================

/-- C2: for both pipeline entry points (with a valid speaker list for the
dialogue variant): a success on attempt k, after k failures, returns a
success result having made exactly k+1 attempts (in particular, fail-twice
then succeed means success in exactly MAX_RETRIES = 3 attempts); and if every
attempt fails, exactly 3 attempts are made and the returned failure carries
the recorded error of the last attempt. -/
theorem c2_retry_behavior (outcomes : Nat → AttemptOutcome)
    (speakers : List (String × String)) (hsp : speakers.length ≤ 2) :
    (∀ k, k < MAX_RETRIES → (∀ i, i < k → attemptFails (outcomes i) = true) →
        attemptSucceeds (outcomes k) = true →
        ((generate_monologue outcomes).2 = k + 1 ∧
         (generate_monologue outcomes).1.success = true ∧
         (generate_dialogue speakers outcomes).2 = k + 1 ∧
         (generate_dialogue speakers outcomes).1.success = true))
    ∧ ((∀ i, i < MAX_RETRIES → attemptFails (outcomes i) = true) →
        ∃ s, attemptErrVal (outcomes 2) = some s ∧ s ≠ "" ∧
          generate_monologue outcomes = (⟨[], false, some s⟩, 3) ∧
          generate_dialogue speakers outcomes = (⟨[], false, some s⟩, 3)) := by
  have hd : generate_dialogue speakers outcomes = goLoop outcomes MAX_RETRIES 0 none := by
    unfold generate_dialogue
    have h2 : ¬ speakers.length > 2 := by omega
    simp [h2]
  have hm : generate_monologue outcomes = goLoop outcomes MAX_RETRIES 0 none := rfl
  constructor
  · intro k hk hf hs
    have key : (goLoop outcomes 3 0 none).2 = k + 1 ∧
        (goLoop outcomes 3 0 none).1.success = true := by
      have hk3 : k < 3 := hk
      interval_cases k
      · exact goLoop_step_succ outcomes 2 0 none hs
      · have e0 : goLoop outcomes 3 0 none =
            goLoop outcomes 2 1 (attemptErrVal (outcomes 0)) :=
          goLoop_step_fail outcomes 2 0 none (hf 0 (by omega))
        rw [e0]
        exact goLoop_step_succ outcomes 1 1 _ hs
      · have e0 : goLoop outcomes 3 0 none =
            goLoop outcomes 2 1 (attemptErrVal (outcomes 0)) :=
          goLoop_step_fail outcomes 2 0 none (hf 0 (by omega))
        have e1 : goLoop outcomes 2 1 (attemptErrVal (outcomes 0)) =
            goLoop outcomes 1 2 (attemptErrVal (outcomes 1)) :=
          goLoop_step_fail outcomes 1 1 _ (hf 1 (by omega))
        rw [e0, e1]
        exact goLoop_step_succ outcomes 0 2 _ hs
    rw [hm, hd]
    exact ⟨key.1, key.2, key.1, key.2⟩
  · intro hf
    obtain ⟨s, hsome, hne⟩ := attemptFails_errVal (outcomes 2) (hf 2 (by decide))
    have e0 : goLoop outcomes 3 0 none =
        goLoop outcomes 2 1 (attemptErrVal (outcomes 0)) :=
      goLoop_step_fail outcomes 2 0 none (hf 0 (by decide))
    have e1 : goLoop outcomes 2 1 (attemptErrVal (outcomes 0)) =
        goLoop outcomes 1 2 (attemptErrVal (outcomes 1)) :=
      goLoop_step_fail outcomes 1 1 _ (hf 1 (by decide))
    have e2 : goLoop outcomes 1 2 (attemptErrVal (outcomes 1)) =
        goLoop outcomes 0 3 (attemptErrVal (outcomes 2)) :=
      goLoop_step_fail outcomes 0 2 _ (hf 2 (by decide))
    have efin : goLoop outcomes 3 0 none = (retriesExhausted (attemptErrVal (outcomes 2)), 3) := by
      rw [e0, e1, e2]
      rfl
    have hbeq : (s == "") = false := beq_eq_false_iff_ne.mpr hne
    have hres : retriesExhausted (attemptErrVal (outcomes 2)) =
        ⟨[], false, some s⟩ := by
      rw [hsome]
      unfold retriesExhausted pyOrStr
      simp [hbeq]
    refine ⟨s, hsome, hne, ?_, ?_⟩
    · rw [hm]
      show goLoop outcomes 3 0 none = _
      rw [efin, hres]
    · rw [hd]
      show goLoop outcomes 3 0 none = _
      rw [efin, hres]

/-- Witness for C2: a concrete oracle that fails twice (empty candidates
array) and then succeeds; the pipeline returns success after exactly three
attempts. -/
theorem c2_witness :
    (∀ i, i < 2 → attemptFails ((fun j => if j < 2 then
        AttemptOutcome.responds sampleEmptyCandidates
      else AttemptOutcome.responds sampleSuccessEnvelope) i) = true) ∧
    attemptSucceeds ((fun j => if j < 2 then
        AttemptOutcome.responds sampleEmptyCandidates
      else AttemptOutcome.responds sampleSuccessEnvelope) 2) = true ∧
    (generate_monologue (fun j => if j < 2 then
        AttemptOutcome.responds sampleEmptyCandidates
      else AttemptOutcome.responds sampleSuccessEnvelope)).2 = 3 ∧
    (generate_monologue (fun j => if j < 2 then
        AttemptOutcome.responds sampleEmptyCandidates
      else AttemptOutcome.responds sampleSuccessEnvelope)).1.success = true := by
  have h := (c2_retry_behavior (fun j => if j < 2 then
        AttemptOutcome.responds sampleEmptyCandidates
      else AttemptOutcome.responds sampleSuccessEnvelope) [] (by decide)).1
      2 (by decide) (by decide) (by decide)
  exact ⟨by decide, by decide, h.1, h.2.1⟩
-- ===================== C3: parser totality and unexpected shapes =====================

/-- C3: the response parser is total — on every JSON envelope it either
returns a `TTSResult` or raises a modelled exception; an object envelope with
neither a usable `candidates` key nor an `error` key yields the
UnexpectedFormat failure; and whenever the parser raises (e.g. on malformed
inline audio data or an unusable `candidates` shape), the retry loop catches
the exception and converts it into a sanitized failure instead of crashing. -/
theorem c3_parser_total (data : JValue) :
    ((∃ r, parse_response data = .ok r) ∨ (∃ e, parse_response data = .error e))
    ∧ (∀ kvs, data = .obj kvs → jHasKey data "candidates" = false →
        jHasKey data "error" = false →
        parse_response data = .ok ⟨[], false, some "Unexpected API response"⟩)
    ∧ (∀ e, parse_response data = .error e →
        generate_monologue (fun _ => .responds data) =
          (⟨[], false, some (sanitize_error e)⟩, 3)) := by
  refine ⟨?_, ?_, ?_⟩
  · cases h : parse_response data with
    | ok r => exact Or.inl ⟨r, rfl⟩
    | error e => exact Or.inr ⟨e, rfl⟩
  · intro kvs hdata hc he
    subst hdata
    simp only [jHasKey] at hc he
    simp [parse_response, pyContains, hc, he]
  · intro e he
    have hfail : ∀ i : Nat, attemptFails ((fun _ => AttemptOutcome.responds data) i) = true := by
      intro i
      show (match parse_response data with
        | Except.ok r => !r.success
        | Except.error _ => true) = true
      rw [he]
    have herr : ∀ i : Nat, attemptErrVal ((fun _ => AttemptOutcome.responds data) i) =
        some (sanitize_error e) := by
      intro i
      show (match parse_response data with
        | Except.ok r => r.error
        | Except.error e2 => some (sanitize_error e2)) = some (sanitize_error e)
      rw [he]
    have e0 := goLoop_step_fail (fun _ => .responds data) 2 0 none (hfail 0)
    have e1 := goLoop_step_fail (fun _ => .responds data) 1 1
      (attemptErrVal (AttemptOutcome.responds data)) (hfail 1)
    have e2 := goLoop_step_fail (fun _ => .responds data) 0 2
      (attemptErrVal (AttemptOutcome.responds data)) (hfail 2)
    have efin : generate_monologue (fun _ => .responds data) =
        (retriesExhausted (attemptErrVal (AttemptOutcome.responds data)), 3) := by
      show goLoop (fun _ => .responds data) 3 0 none = _
      rw [e0, e1, e2]
      rfl
    rw [efin, herr 0]
    have hne : sanitize_error e ≠ "" := sanitize_error_ne_empty e
    have hbeq : (sanitize_error e == "") = false := beq_eq_false_iff_ne.mpr hne
    unfold retriesExhausted pyOrStr
    simp [hbeq]

/-- Witness for C3: the no-recognized-shape object yields the
UnexpectedFormat failure, and an envelope with an empty candidates array
(whose parse raises IndexError) is converted by the loop into a sanitized
failure naming only the exception class. -/
theorem c3_witness :
    parse_response sampleUnexpectedEnvelope =
      .ok ⟨[], false, some "Unexpected API response"⟩ ∧
    parse_response sampleEmptyCandidates = .error indexErrorExc ∧
    generate_monologue (fun _ => .responds sampleEmptyCandidates) =
      (⟨[], false, some (sanitize_error indexErrorExc)⟩, 3) :=
  ⟨(c3_parser_total sampleUnexpectedEnvelope).2.1 [("foo", .null)] rfl (by decide) (by decide),
   rfl,
   (c3_parser_total sampleEmptyCandidates).2.2 indexErrorExc rfl⟩
theorem pyGetItem_ok_shape (v : JValue) (k : String) (x : JValue)
    (h : pyGetItem v k = .ok x) : ∃ kvs, v = .obj kvs ∧ jLookup kvs k = some x := by
  cases v <;> simp [pyGetItem] at h
  case obj kvs =>
    cases hl : jLookup kvs k with
    | none => rw [hl] at h; simp at h
    | some y =>
      rw [hl] at h
      simp at h
      exact ⟨kvs, rfl, by rw [hl, h]⟩

theorem pyGetAttrDefault_ok_shape (v : JValue) (k : String) (d x : JValue)
    (h : pyGetAttrDefault v k d = .ok x) :
    ∃ kvs, v = .obj kvs ∧ x = (jLookup kvs k).getD d := by
  cases v <;> simp [pyGetAttrDefault] at h
  case obj kvs => exact ⟨kvs, rfl, h.symm⟩

theorem pyIndexZero_ok_obj (v c : JValue) (kvs : List (String × JValue))
    (h : pyIndexZero v = .ok c) (hc : c = .obj kvs) : ∃ rest, v = .arr (c :: rest) := by
  cases v with
  | arr xs =>
    cases xs with
    | nil => simp [pyIndexZero] at h
    | cons y ys =>
      simp [pyIndexZero] at h
      exact ⟨ys, by rw [h]⟩
  | str s =>
    simp [pyIndexZero] at h
    rcases hT : s.data with _ | ⟨c0, cs⟩ <;> rw [hT] at h <;> simp at h
    rw [← h] at hc
    cases hc
  | null => simp [pyIndexZero] at h
  | bool b => simp [pyIndexZero] at h
  | num n => simp [pyIndexZero] at h
  | obj kvs2 => simp [pyIndexZero] at h

theorem getD_null_eq_of_ne (o : Option JValue) (x : JValue) (h : o.getD .null = x)
    (hx : ¬ x = JValue.null) : o = some x := by
  cases o with
  | none => exact absurd h.symm hx
  | some y =>
    simp at h
    rw [h]

theorem b64_match_ok (dv : JValue) (audio : List Nat)
    (h : (match dv with
          | JValue.str s => b64decode s
          | _ => Except.error typeErrorExc) = .ok audio) :
    ∃ s, dv = .str s ∧ b64decode s = .ok audio := by
  cases dv <;> simp at h
  case str s => exact ⟨s, rfl, h⟩

-- ===================== C9: success audio provenance =====================

/-- C9 counterexample: a response whose inline payload is the base64 string
"AA==" yields a pipeline Success whose decoded audio has odd length 1, so the
even-length claim fails. -/
theorem c9_counterexample :
    parse_response sampleOddEnvelope =
      .ok { audio_data := [0], success := true, error := none } ∧
    generate_monologue (fun _ => .responds sampleOddEnvelope) =
      ({ audio_data := [0], success := true, error := none }, 1) ∧
    ([0] : List Nat).length % 2 = 1 :=
  ⟨rfl, rfl, rfl⟩

/-- C9 amended: every success result's audio is the verbatim base64 decoding
of the response's inline data payload; the parser enforces no 16-bit
alignment, so the byte length is even exactly when the payload decodes to an
even number of bytes (and a payload such as "AA==" produces an odd length). -/
theorem c9_success_audio_amended (data : JValue) (r : TTSResult)
    (h : parse_response data = .ok r) (hs : r.success = true) :
    ∃ s, inlineAudioField data = some s ∧ b64decode s = .ok r.audio_data := by
  unfold parse_response at h
  repeat' split at h
  all_goals (cases h; try simp [noAudioResult] at hs)
  rename_i x10 hC x9 cands hGI x8 cand0 hIZ x7 fr hFR hNB x6 content hContent
    x5 hasParts hHP hHPT x4 parts hPData x3 part0 hP0 x2 inline hInl x1 dataV
    hDIf hTr xB audio hB64
  clear hs x10 x9 x8 x7 x6 x5 x4 x3 x2 x1 xB hC hNB hHP hHPT fr hFR
  obtain ⟨kvs, hdata, hlookC⟩ := pyGetItem_ok_shape data "candidates" cands hGI
  obtain ⟨ckvs, hcand, hcontentD⟩ :=
    pyGetAttrDefault_ok_shape cand0 "content" JValue.null content hContent
  obtain ⟨rest, hcands⟩ := pyIndexZero_ok_obj cands cand0 ckvs hIZ hcand
  obtain ⟨contkvs, hcontent, hlookP⟩ := pyGetItem_ok_shape content "parts" parts hPData
  obtain ⟨pkvs, hpart0, hinl⟩ :=
    pyGetAttrDefault_ok_shape part0 "inlineData" JValue.null inline hInl
  obtain ⟨rest2, hparts⟩ := pyIndexZero_ok_obj parts part0 pkvs hP0 hpart0
  -- the inline truthiness guard forces the then-branch
  have hIf : pyGetAttrDefault inline "data" JValue.null = .ok dataV := by
    by_cases ht : pyTruthy inline = true
    · rw [if_pos ht] at hDIf
      exact hDIf
    · rw [if_neg ht] at hDIf
      injection hDIf with hDIf
      rw [← hDIf] at hTr
      simp [pyTruthy] at hTr
  obtain ⟨ikvs, hinline, hdataV⟩ :=
    pyGetAttrDefault_ok_shape inline "data" JValue.null dataV hIf
  obtain ⟨s, hdvstr, hdec⟩ := b64_match_ok dataV audio hB64
  -- recover the option-lookups from the getD values
  have hlookContent : jLookup ckvs "content" = some content :=
    getD_null_eq_of_ne _ _ hcontentD.symm (by rw [hcontent]; intro hh; cases hh)
  have hlookInline : jLookup pkvs "inlineData" = some inline :=
    getD_null_eq_of_ne _ _ hinl.symm (by rw [hinline]; intro hh; cases hh)
  have hlookData : jLookup ikvs "data" = some dataV :=
    getD_null_eq_of_ne _ _ hdataV.symm (by rw [hdvstr]; intro hh; cases hh)
  subst hdata
  refine ⟨s, ?_, hdec⟩
  simp [inlineAudioField, hlookC, hcands, hcand, hlookContent, hcontent, hlookP,
    hparts, hpart0, hlookInline, hinline, hlookData, hdvstr]

/-- Witness for C9's amended theorem at a concrete success envelope. -/
theorem c9_witness :
    ∃ s, inlineAudioField sampleSuccessEnvelope = some s ∧
      b64decode s = .ok [0, 0, 0] :=
  c9_success_audio_amended sampleSuccessEnvelope
    { audio_data := [0, 0, 0], success := true, error := none } rfl rfl
theorem extractStep_inv (st : List String × List String) (m : String)
    (h1 : st.2.Nodup) (h2 : ∀ x ∈ st.2, x ∈ st.1) :
    (extractStep st m).2.Nodup ∧ (∀ x ∈ (extractStep st m).2, x ∈ (extractStep st m).1) := by
  simp only [extractStep]
  split_ifs with hskip hexcl
  · exact ⟨h1, h2⟩
  · exact ⟨h1, h2⟩
  · simp only [Bool.or_eq_true, not_or] at hskip
    have hnotin : pyStrip m ∉ st.1 := by
      intro hmem
      exact hskip.2 (by simpa [List.elem_iff] using hmem)
    constructor
    · rw [List.nodup_append]
      refine ⟨h1, List.nodup_singleton _, ?_⟩
      intro x hx hx1
      simp at hx1
      subst hx1
      exact hnotin (h2 _ hx)
    · intro x hx
      simp at hx ⊢
      rcases hx with hx | hx
      · exact Or.inl (h2 x hx)
      · exact Or.inr hx

theorem extract_fold_inv (ms : List String) (st : List String × List String)
    (h1 : st.2.Nodup) (h2 : ∀ x ∈ st.2, x ∈ st.1) :
    (ms.foldl extractStep st).2.Nodup ∧
    (∀ x ∈ (ms.foldl extractStep st).2, x ∈ (ms.foldl extractStep st).1) := by
  induction ms generalizing st with
  | nil => exact ⟨h1, h2⟩
  | cons m ms ih =>
    simp only [List.foldl_cons]
    obtain ⟨g1, g2⟩ := extractStep_inv st m h1 h2
    exact ih _ g1 g2

theorem extract_speakers_nodup (text : String) :
    (extract_speakers_simple text).Nodup := by
  unfold extract_speakers_simple
  exact (extract_fold_inv (pyFindallDialogue text) ([], [])
    List.nodup_nil (by intro x hx; cases hx)).1

theorem nodup_two_bound {s0 s1 sp : String} {l : List String} (hnd : l.Nodup)
    (hsub : ∀ p ∈ l, p = s0 ∨ p = s1) (hsp : sp = s0 ∨ sp = s1) (hnm : sp ∉ l) :
    l.length ≤ 1 := by
  match l, hnd, hsub, hnm with
  | [], _, _, _ => simp
  | [a], _, _, _ => simp
  | a :: b :: t, hnd, hsub, hnm =>
    exfalso
    have ha := hsub a (by simp)
    have hb := hsub b (by simp)
    have hab : a ≠ b := by
      rw [List.nodup_cons] at hnd
      intro he
      exact hnd.1 (by simp [he])
    rcases ha with ha | ha <;> rcases hb with hb | hb
    · exact hab (ha.trans hb.symm)
    · rcases hsp with h | h
      · exact hnm (by simp [h, ← ha])
      · exact hnm (by simp [h, ← hb])
    · rcases hsp with h | h
      · exact hnm (by simp [h, ← hb])
      · exact hnm (by simp [h, ← ha])
    · exact hab (ha.trans hb.symm)

theorem two_mem_nodup_eq {l : List String} {s0 s1 : String} (hnd : l.Nodup)
    (hsub : ∀ p ∈ l, p = s0 ∨ p = s1) (h0 : s0 ∈ l) (h1 : s1 ∈ l) (hne : s0 ≠ s1) :
    l = [s0, s1] ∨ l = [s1, s0] := by
  match l, hnd, hsub, h0, h1 with
  | [], _, _, h0, _ => cases h0
  | [a], _, _, h0, h1 =>
    simp at h0 h1
    exact absurd (h0.trans h1.symm) hne
  | a :: b :: t, hnd, hsub, h0, h1 =>
    have ha := hsub a (by simp)
    have hb := hsub b (by simp)
    rw [List.nodup_cons] at hnd
    have hat : a ∉ b :: t := hnd.1
    have hbt : b ∉ t := by
      have := hnd.2
      rw [List.nodup_cons] at this
      exact this.1
    have hab : a ≠ b := fun he => hat (by simp [he])
    rcases ha with ha | ha <;> rcases hb with hb | hb
    · exact absurd (ha.trans hb.symm) hab
    · have ht : t = [] := by
        cases htc : t with
        | nil => rfl
        | cons c t2 =>
          exfalso
          rcases hsub c (by simp [htc]) with hc | hc
          · have hac : a = c := ha.trans hc.symm
            exact hat (by rw [htc]; simp [hac])
          · have hbc : b = c := hb.trans hc.symm
            exact hbt (by rw [htc]; simp [hbc])
      subst ht
      exact Or.inl (by rw [ha, hb])
    · have ht : t = [] := by
        cases htc : t with
        | nil => rfl
        | cons c t2 =>
          exfalso
          rcases hsub c (by simp [htc]) with hc | hc
          · have hbc : b = c := hb.trans hc.symm
            exact hbt (by rw [htc]; simp [hbc])
          · have hac : a = c := ha.trans hc.symm
            exact hat (by rw [htc]; simp [hac])
      subst ht
      exact Or.inr (by rw [ha, hb])
    · exact absurd (ha.trans hb.symm) hab

theorem find_unused_some (used : List String) (h : used.length ≤ 1) :
    ∃ v, VOICE_NAMES.find? (fun x => !used.contains x) = some v := by
  match used, h with
  | [], _ => exact ⟨"Kore", by decide⟩
  | [x], _ =>
    by_cases hx : x = "Kore"
    · subst hx
      exact ⟨"Puck", by decide⟩
    · refine ⟨"Kore", ?_⟩
      have hd : decide ("Kore" = x) = false := decide_eq_false (fun he => hx he.symm)
      simp [VOICE_NAMES, List.find?, hd]

theorem resolveVoice_spec (used : List String) (v0 : String) (hulen : used.length ≤ 1)
    (hv0 : v0 ∈ VOICE_NAMES) :
    resolveVoice used v0 ∈ VOICE_NAMES ∧ resolveVoice used v0 ∉ used := by
  unfold resolveVoice
  split_ifs with hc
  · obtain ⟨v, hfind⟩ := find_unused_some used hulen
    rw [hfind]
    refine ⟨List.mem_of_find?_eq_some hfind, ?_⟩
    have hp := List.find?_some hfind
    simp at hp
    exact hp
  · refine ⟨hv0, ?_⟩
    intro hmem
    exact hc (List.elem_iff.mpr hmem)

theorem stepAppend_inv {s0 s1 : String} (st : ProcState) (sp v : String)
    (h : ProcInv s0 s1 st) (hsp : sp = s0 ∨ sp = s1)
    (hspn : sp ∉ st.assigned_speakers) (hvn : v ∉ st.used_voices)
    (hvm : v ∈ VOICE_NAMES) : ProcInv s0 s1 (stepAppend st sp v) := by
  obtain ⟨hu, ha, hnd, hund, hmem, hvoice⟩ := h
  refine ⟨?_, ?_, ?_, ?_, ?_, ?_⟩
  · simp [stepAppend, hu]
  · simp [stepAppend, ha]
  · simp only [stepAppend]
    rw [List.nodup_append]
    refine ⟨hnd, List.nodup_singleton _, ?_⟩
    intro x hx hx1
    simp at hx1
    subst hx1
    exact hspn hx
  · simp only [stepAppend]
    rw [List.nodup_append]
    refine ⟨hund, List.nodup_singleton _, ?_⟩
    intro x hx hx1
    simp at hx1
    subst hx1
    exact hvn hx
  · intro p hp
    simp [stepAppend] at hp
    rcases hp with hp | hp
    · exact hmem p hp
    · rw [hp]
      exact hsp
  · intro w hw
    simp [stepAppend] at hw
    rcases hw with hw | hw
    · exact hvoice w hw
    · rw [hw]
      exact hvm

theorem procInv_used_len {s0 s1 : String} (st : ProcState) (h : ProcInv s0 s1 st) :
    st.used_voices.length = st.assigned_speakers.length := by
  rw [h.1, h.2.1]
  simp

theorem stepItem_inv {s0 s1 : String} (st : ProcState) (item : RawItem)
    (h : ProcInv s0 s1 st) : ProcInv s0 s1 (stepItem [s0, s1] st item) := by
  unfold stepItem
  by_cases hc1 : (!(List.contains [s0, s1] item.speaker)) = true
  · rw [if_pos hc1]
    exact h
  · rw [if_neg hc1]
    by_cases hc2 : st.assigned_speakers.contains item.speaker = true
    · rw [if_pos hc2]
      exact h
    · rw [if_neg hc2]
      have hspmem : item.speaker = s0 ∨ item.speaker = s1 := by
        simp at hc1
        exact or_iff_not_imp_left.mpr hc1
      have hspn : item.speaker ∉ st.assigned_speakers := by
        intro hmem
        exact hc2 (List.elem_iff.mpr hmem)
      have hlen : st.assigned_speakers.length ≤ 1 :=
        nodup_two_bound h.2.2.1 h.2.2.2.2.1 hspmem hspn
      have hulen : st.used_voices.length ≤ 1 := by
        rw [procInv_used_len st h]
        exact hlen
      have hv0 : (if VOICE_NAMES.contains item.voice then item.voice
          else if !st.used_voices.contains "Charon" then "Charon" else "Kore") ∈ VOICE_NAMES := by
        split_ifs with hA hB
        · exact List.elem_iff.mp hA
        · decide
        · decide
      obtain ⟨hrm, hrn⟩ := resolveVoice_spec st.used_voices _ hulen hv0
      exact stepAppend_inv st _ _ h hspmem hspn hrn hrm

theorem fillMissingStep_inv {s0 s1 : String} (st : ProcState) (sp : String)
    (h : ProcInv s0 s1 st) (hsp : sp = s0 ∨ sp = s1) :
    ProcInv s0 s1 (fillMissingStep st sp) ∧
    sp ∈ (fillMissingStep st sp).assigned_speakers ∧
    (∀ q ∈ st.assigned_speakers, q ∈ (fillMissingStep st sp).assigned_speakers) := by
  unfold fillMissingStep
  split_ifs with hc
  · exact ⟨h, List.elem_iff.mp hc, fun q hq => hq⟩
  · have hspn : sp ∉ st.assigned_speakers := by
      intro hmem
      exact hc (List.elem_iff.mpr hmem)
    have hlen : st.assigned_speakers.length ≤ 1 :=
      nodup_two_bound h.2.2.1 h.2.2.2.2.1 hsp hspn
    have hulen : st.used_voices.length ≤ 1 := by
      rw [procInv_used_len st h]
      exact hlen
    obtain ⟨v, hfind⟩ := find_unused_some st.used_voices hulen
    rw [hfind]
    have hvm : v ∈ VOICE_NAMES := List.mem_of_find?_eq_some hfind
    have hvn : v ∉ st.used_voices := by
      have hp := List.find?_some hfind
      simp at hp
      exact hp
    refine ⟨stepAppend_inv st sp v h hsp hspn hvn hvm, ?_, ?_⟩
    · simp [stepAppend]
    · intro q hq
      simp [stepAppend]
      exact Or.inl hq

theorem map_fst_two (l : List (String × String)) (a b : String)
    (h : l.map Prod.fst = [a, b]) : ∃ va vb, l = [(a, va), (b, vb)] := by
  match l with
  | [] => simp at h
  | [p] => simp at h
  | [p, q] =>
    simp at h
    exact ⟨p.2, q.2, by rw [← h.1, ← h.2]⟩
  | p :: q :: r :: t => simp at h

theorem analyze_sync_two (s0 s1 : String) (hne : s0 ≠ s1) (items : List RawItem) :
    ∃ p0 v0 p1 v1,
      analyze_with_gemini_sync [s0, s1] (some items) = [(p0, v0), (p1, v1)] ∧
      ((p0 = s0 ∧ p1 = s1) ∨ (p0 = s1 ∧ p1 = s0)) ∧
      v0 ≠ v1 ∧ v0 ∈ VOICE_NAMES ∧ v1 ∈ VOICE_NAMES := by
  have hInit : ProcInv s0 s1 ⟨[], [], []⟩ := by
    refine ⟨rfl, rfl, List.nodup_nil, List.nodup_nil, ?_, ?_⟩ <;> simp
  have hFold : ∀ (its : List RawItem) (st : ProcState), ProcInv s0 s1 st →
      ProcInv s0 s1 (its.foldl (stepItem [s0, s1]) st) := by
    intro its
    induction its with
    | nil => intro st hst; exact hst
    | cons it its2 ih =>
      intro st hst
      simp only [List.foldl_cons]
      exact ih _ (stepItem_inv st it hst)
  have h1 := hFold items _ hInit
  obtain ⟨h2, hs0mem, _⟩ :=
    fillMissingStep_inv (items.foldl (stepItem [s0, s1]) ⟨[], [], []⟩) s0 h1 (Or.inl rfl)
  obtain ⟨h3, hs1mem, hmono⟩ := fillMissingStep_inv _ s1 h2 (Or.inr rfl)
  have hsync : analyze_with_gemini_sync [s0, s1] (some items) =
      (fillMissingStep (fillMissingStep
        (items.foldl (stepItem [s0, s1]) ⟨[], [], []⟩) s0) s1).assignments := rfl
  have hs0F : s0 ∈ (fillMissingStep (fillMissingStep
      (items.foldl (stepItem [s0, s1]) ⟨[], [], []⟩) s0) s1).assigned_speakers :=
    hmono _ hs0mem
  obtain ⟨hu, ha, hnd, hund, hmem, hvoice⟩ := h3
  have hform := two_mem_nodup_eq hnd hmem hs0F hs1mem hne
  rw [ha] at hform
  rcases hform with hf | hf
  · obtain ⟨va, vb, hl⟩ := map_fst_two _ _ _ hf
    refine ⟨s0, va, s1, vb, by rw [hsync, hl], Or.inl ⟨rfl, rfl⟩, ?_, ?_, ?_⟩
    · rw [hu, hl] at hund
      simp at hund
      exact hund
    · exact hvoice va (by rw [hu, hl]; simp)
    · exact hvoice vb (by rw [hu, hl]; simp)
  · obtain ⟨va, vb, hl⟩ := map_fst_two _ _ _ hf
    refine ⟨s1, va, s0, vb, by rw [hsync, hl], Or.inr ⟨rfl, rfl⟩, ?_, ?_, ?_⟩
    · rw [hu, hl] at hund
      simp at hund
      exact hund
    · exact hvoice va (by rw [hu, hl]; simp)
    · exact hvoice vb (by rw [hu, hl]; simp)

-- ===================== C1: two-speaker analysis is well-formed =====================

set_option linter.unnecessarySeqFocus false in
/-- C1: whenever extraction finds exactly two (necessarily distinct) labels,
`analyze` returns a dialogue result with exactly two assignments, whose
speakers are exactly the two original labels (each once, in some order),
whose voices are distinct catalog keys — for every classifier outcome:
exception, malformed JSON, or an arbitrary parsed assignment list with
hallucinated speakers, duplicates, unknown or duplicate voices, or
omissions. -/
theorem c1_two_speaker_analysis (text : String) (s0 s1 : String)
    (classifier : ClassifierOutcome)
    (h : extract_speakers_simple text = [s0, s1]) :
    ∃ p0 v0 p1 v1,
      (analyze text classifier).1.is_dialogue = true ∧
      (analyze text classifier).1.speakers = [(p0, v0), (p1, v1)] ∧
      ((p0 = s0 ∧ p1 = s1) ∨ (p0 = s1 ∧ p1 = s0)) ∧
      v0 ≠ v1 ∧ v0 ∈ VOICE_NAMES ∧ v1 ∈ VOICE_NAMES ∧
      (analyze text classifier).1.error = none ∧
      (analyze text classifier).2 = true := by
  have hne : s0 ≠ s1 := by
    have hnd := extract_speakers_nodup text
    rw [h] at hnd
    simp [List.nodup_cons] at hnd
    exact hnd
  cases classifier with
  | raised =>
    have hA : analyze text .raised = (⟨true, assign_default_voices [s0, s1], none⟩, true) := by
      unfold analyze
      simp [h]
    refine ⟨s0, "Charon", s1, "Zephyr", ?_, ?_, Or.inl ⟨rfl, rfl⟩,
      by decide, by decide, by decide, ?_, ?_⟩ <;> rw [hA] <;> rfl
  | returned body =>
    cases body with
    | none =>
      have hA : analyze text (.returned none) =
          (⟨true, assign_default_voices [s0, s1], none⟩, true) := by
        unfold analyze
        simp [h, analyze_with_gemini_sync]
      refine ⟨s0, "Charon", s1, "Zephyr", ?_, ?_, Or.inl ⟨rfl, rfl⟩,
        by decide, by decide, by decide, ?_, ?_⟩ <;> rw [hA] <;> rfl
    | some items =>
      have hA : analyze text (.returned (some items)) =
          (⟨true, analyze_with_gemini_sync [s0, s1] (some items), none⟩, true) := by
        unfold analyze
        simp [h]
      obtain ⟨p0, v0, p1, v1, he, hor, hnev, hm0, hm1⟩ := analyze_sync_two s0 s1 hne items
      refine ⟨p0, v0, p1, v1, by rw [hA], ?_, hor, hnev, hm0, hm1, by rw [hA], by rw [hA]⟩
      rw [hA]
      exact he

/-- Witness for C1 at a concrete two-speaker text and an adversarial
classifier output (hallucinated speaker, duplicate speaker, duplicate
voice). -/
theorem c1_witness :
    extract_speakers_simple "A: hi\nB: yo" = ["A", "B"] ∧
    ∃ p0 v0 p1 v1,
      (analyze "A: hi\nB: yo" (.returned (some
        [⟨"A", "Kore"⟩, ⟨"X", "Zephyr"⟩, ⟨"A", "Puck"⟩, ⟨"B", "Kore"⟩]))).1.is_dialogue = true ∧
      (analyze "A: hi\nB: yo" (.returned (some
        [⟨"A", "Kore"⟩, ⟨"X", "Zephyr"⟩, ⟨"A", "Puck"⟩, ⟨"B", "Kore"⟩]))).1.speakers =
        [(p0, v0), (p1, v1)] ∧
      ((p0 = "A" ∧ p1 = "B") ∨ (p0 = "B" ∧ p1 = "A")) ∧
      v0 ≠ v1 ∧ v0 ∈ VOICE_NAMES ∧ v1 ∈ VOICE_NAMES ∧
      (analyze "A: hi\nB: yo" (.returned (some
        [⟨"A", "Kore"⟩, ⟨"X", "Zephyr"⟩, ⟨"A", "Puck"⟩, ⟨"B", "Kore"⟩]))).1.error = none ∧
      (analyze "A: hi\nB: yo" (.returned (some
        [⟨"A", "Kore"⟩, ⟨"X", "Zephyr"⟩, ⟨"A", "Puck"⟩, ⟨"B", "Kore"⟩]))).2 = true :=
  ⟨by decide,
   c1_two_speaker_analysis "A: hi\nB: yo" "A" "B"
     (.returned (some [⟨"A", "Kore"⟩, ⟨"X", "Zephyr"⟩, ⟨"A", "Puck"⟩, ⟨"B", "Kore"⟩]))
     (by decide)⟩
